import Mathlib

/-!
Verification of the reconciliation logic of `packages/react-youtube/src/YouTube.tsx`.

The component is a thin adapter between declarative props and an imperative
embedded player.  This file gives a shallow embedding of the pure diffing
predicates (`shouldUpdateVideo`, `filterResetOptions`, `shouldResetPlayer`,
`shouldUpdatePlayer`), of the dispatch done by `componentDidUpdate`, of the
command selection in `updateVideo`, of the callback dispatch in
`onPlayerStateChange`, and of the guarded `createPlayer`, and proves the
documented reconciliation properties about them.

Modelling conventions: a JavaScript object field is `Option`-valued, with
`none` standing for an absent key (reading it yields `undefined`); numeric
option values are `Int`; the remaining opaque key/value pairs of an object
are an association list `extra`; the deep equality `isEqual` of
`fast-deep-equal` is structural equality of the embedded values.
-/

namespace ReactYouTube

/-- The `playerVars` object inside `opts`.  The source key `end` is a Lean
keyword and is embedded as `end_`.  `extra` holds the other opaque
key/value pairs of the object. -/
structure PlayerVars where
  autoplay : Option Int
  start : Option Int
  end_ : Option Int
  extra : List (String × Int)
deriving DecidableEq

/-- The empty object: what spreading an absent `playerVars` produces, and
what `prevProps.opts.playerVars || ...` falls back to. -/
def emptyPlayerVars : PlayerVars :=
  { autoplay := none, start := none, end_ := none, extra := [] }

/-- The `opts` prop (the `Options` type of the `youtube-player` package):
`width`, `height`, an optional `playerVars` object, and the remaining
opaque key/value pairs. -/
structure Options where
  width : Option Int
  height : Option Int
  playerVars : Option PlayerVars
  extra : List (String × Int)
deriving DecidableEq

/-- The empty `opts` object. -/
def emptyOptions : Options :=
  { width := none, height := none, playerVars := none, extra := [] }

/-- The data fields of `YouTubeProps` that the reconciliation logic reads.
The callback props and `containerStyle` take part in no comparison made by
the source and are omitted.  `none` models `undefined` (for `videoId` it
also models `null`: `updateVideo` treats the two identically, and both
read as absent). -/
structure YouTubeProps where
  videoId : Option String
  id : Option String
  className : Option String
  containerClassName : Option String
  title : Option String
  loading : Option String
  opts : Options
deriving DecidableEq

/-- `defaultProps` of the component: every string prop defaults to the
empty string, `loading` stays `undefined` and `opts` defaults to the empty
object. -/
def defaultProps : YouTubeProps :=
  { videoId := some "", id := some "", className := some "",
    containerClassName := some "", title := some "", loading := none,
    opts := emptyOptions }

/-- `shouldUpdateVideo(prevProps, props)`: a changing `videoId` always
triggers an update; otherwise a change in the `start` or `end` playerVars
does, where an absent `playerVars` object is read as the empty object. -/
def shouldUpdateVideo (prevProps props : YouTubeProps) : Bool :=
  if prevProps.videoId ≠ props.videoId then true
  else
    let prevVars := prevProps.opts.playerVars.getD emptyPlayerVars
    let vars := props.opts.playerVars.getD emptyPlayerVars
    decide (prevVars.start ≠ vars.start) || decide (prevVars.end_ ≠ vars.end_)

/-- `filterResetOptions(opts)`: spread `opts`, overwrite `height` and
`width` with `0`, and overwrite `playerVars` with the spread of the
existing `playerVars` (the empty object when absent) in which `autoplay`,
`start` and `end` are set to `0`. -/
def filterResetOptions (opts : Options) : Options :=
  { opts with
    height := some 0
    width := some 0
    playerVars := some
      { opts.playerVars.getD emptyPlayerVars with
        autoplay := some 0
        start := some 0
        end_ := some 0 } }

/-- `shouldResetPlayer(prevProps, props)`: the `videoId` changed, or the
filtered option snapshots are deeply unequal. -/
def shouldResetPlayer (prevProps props : YouTubeProps) : Bool :=
  decide (prevProps.videoId ≠ props.videoId) ||
    decide (filterResetOptions prevProps.opts ≠ filterResetOptions props.opts)

/-- `shouldUpdatePlayer(prevProps, props)`: `id`, `className`, declared
`width`, declared `height` or `title` changed. -/
def shouldUpdatePlayer (prevProps props : YouTubeProps) : Bool :=
  decide (prevProps.id ≠ props.id) ||
    decide (prevProps.className ≠ props.className) ||
    decide (prevProps.opts.width ≠ props.opts.width) ||
    decide (prevProps.opts.height ≠ props.opts.height) ||
    decide (prevProps.title ≠ props.title)

/-- The three imperative paths `componentDidUpdate` can take. -/
inductive UpdateAction where
  | updatePlayer
  | resetPlayer
  | updateVideo
deriving DecidableEq

/-- `componentDidUpdate(prevProps)`: evaluate the three predicates
independently against the same pair, in the fixed order appearance update,
reset, video update, and collect the paths taken. -/
def componentDidUpdate (prevProps props : YouTubeProps) : List UpdateAction :=
  (if shouldUpdatePlayer prevProps props then [UpdateAction.updatePlayer] else []) ++
    (if shouldResetPlayer prevProps props then [UpdateAction.resetPlayer] else []) ++
    (if shouldUpdateVideo prevProps props then [UpdateAction.updateVideo] else [])

/-- The static `YouTube.PlayerState` table. -/
def PlayerState.UNSTARTED : Int := -1

/-- `PlayerState.ENDED`. -/
def PlayerState.ENDED : Int := 0

/-- `PlayerState.PLAYING`. -/
def PlayerState.PLAYING : Int := 1

/-- `PlayerState.PAUSED`. -/
def PlayerState.PAUSED : Int := 2

/-- `PlayerState.BUFFERING`. -/
def PlayerState.BUFFERING : Int := 3

/-- `PlayerState.CUED`. -/
def PlayerState.CUED : Int := 5

/-- Which caller callbacks a single `stateChange` event fires. -/
structure FiredCallbacks where
  onStateChange : Bool
  onEnd : Bool
  onPlay : Bool
  onPause : Bool
deriving DecidableEq

/-- `onPlayerStateChange(event)`: always relay to `onStateChange`, then
switch on `event.data` against the `PlayerState` constants, firing at most
one of `onEnd`, `onPlay`, `onPause`. -/
def onPlayerStateChange (data : Int) : FiredCallbacks :=
  if data = PlayerState.ENDED then
    { onStateChange := true, onEnd := true, onPlay := false, onPause := false }
  else if data = PlayerState.PLAYING then
    { onStateChange := true, onEnd := false, onPlay := true, onPause := false }
  else if data = PlayerState.PAUSED then
    { onStateChange := true, onEnd := false, onPlay := false, onPause := true }
  else
    { onStateChange := true, onEnd := false, onPlay := false, onPause := false }

/-- The payload `updateVideo` builds for `loadVideoById` / `cueVideoById`:
the video id, plus `startSeconds` and `endSeconds` each present (`some`)
exactly when the corresponding key was set. -/
structure VideoOpts where
  videoId : String
  startSeconds : Option Int
  endSeconds : Option Int
deriving DecidableEq

/-- The imperative command `updateVideo` issues on the internal player. -/
inductive VideoCommand where
  | stopVideo
  | loadVideoById (opts : VideoOpts)
  | cueVideoById (opts : VideoOpts)
deriving DecidableEq

/-- `updateVideo()`: an undefined or null `videoId` stops the video;
otherwise the payload carries the id, `startSeconds` when the `start` key
is in `playerVars`, `endSeconds` when the `end` key is, and the command is
`loadVideoById` when `playerVars` is present with `autoplay === 1`, else
`cueVideoById`. -/
def updateVideo (props : YouTubeProps) : VideoCommand :=
  match props.videoId with
  | none => VideoCommand.stopVideo
  | some vid =>
    match props.opts.playerVars with
    | none =>
      VideoCommand.cueVideoById { videoId := vid, startSeconds := none, endSeconds := none }
    | some vars =>
      let opts : VideoOpts :=
        { videoId := vid, startSeconds := vars.start, endSeconds := vars.end_ }
      if vars.autoplay = some 1 then VideoCommand.loadVideoById opts
      else VideoCommand.cueVideoById opts

/-- The options handed to the external `youTubePlayer` factory: the spread
of `props.opts` with the current `videoId` preloaded. -/
structure PlayerOptions where
  opts : Options
  videoId : Option String
deriving DecidableEq

/-- One observable side effect of `createPlayer`: the factory call on the
container, or one `internalPlayer.on(eventName, handler)` subscription. -/
inductive Effect where
  | factoryCall (playerOpts : PlayerOptions)
  | subscribe (eventName : String)
deriving DecidableEq

/-- `createPlayer()`: when `typeof document` is undefined (a non-browser
context, modelled by `documentDefined = false`) it returns at once;
otherwise it calls the factory with `props.opts` spread together with the
current `videoId` and attaches the five event handlers.  The result is the
new `internalPlayer` reference together with the effects issued. -/
def createPlayer (documentDefined : Bool) (props : YouTubeProps)
    (internalPlayer : Option PlayerOptions) : Option PlayerOptions × List Effect :=
  if !documentDefined then (internalPlayer, [])
  else
    let playerOpts : PlayerOptions := { opts := props.opts, videoId := props.videoId }
    (some playerOpts,
      [Effect.factoryCall playerOpts, Effect.subscribe "ready", Effect.subscribe "error",
        Effect.subscribe "stateChange", Effect.subscribe "playbackRateChange",
        Effect.subscribe "playbackQualityChange"])

/-- `shouldResetPlayer` is false when the video id is unchanged and the
filtered option snapshots coincide. -/
lemma shouldResetPlayer_eq_false {p q : YouTubeProps}
    (h1 : p.videoId = q.videoId)
    (h2 : filterResetOptions p.opts = filterResetOptions q.opts) :
    shouldResetPlayer p q = false := by
  simp [shouldResetPlayer, h1, h2]

/-- `shouldUpdateVideo` is false when the video id and both trim values are
unchanged. -/
lemma shouldUpdateVideo_eq_false {p q : YouTubeProps}
    (h1 : p.videoId = q.videoId)
    (h2 : p.opts.playerVars = q.opts.playerVars) :
    shouldUpdateVideo p q = false := by
  simp [shouldUpdateVideo, h1, h2]

/-- Closed form of the state-change dispatch. -/
lemma onPlayerStateChange_eq (data : Int) :
    onPlayerStateChange data =
      { onStateChange := true, onEnd := decide (data = 0),
        onPlay := decide (data = 1), onPause := decide (data = 2) } := by
  unfold onPlayerStateChange PlayerState.ENDED PlayerState.PLAYING PlayerState.PAUSED
  split_ifs with h1 h2 h3 <;> simp_all

/-- C1: for every pair of configurations that differ only in the `start`
and/or `end` trim values inside `opts.playerVars`, the reset predicate
`shouldResetPlayer` returns false while the video-update predicate
`shouldUpdateVideo` returns true. -/
theorem trim_change_updates_without_reset
    (p q : YouTubeProps) (pv qv : PlayerVars)
    (hvid : p.videoId = q.videoId) (hid : p.id = q.id)
    (hcls : p.className = q.className)
    (hctr : p.containerClassName = q.containerClassName)
    (htitle : p.title = q.title) (hload : p.loading = q.loading)
    (hw : p.opts.width = q.opts.width) (hh : p.opts.height = q.opts.height)
    (hext : p.opts.extra = q.opts.extra)
    (hpv : p.opts.playerVars = some pv) (hqv : q.opts.playerVars = some qv)
    (hauto : pv.autoplay = qv.autoplay) (hpext : pv.extra = qv.extra)
    (hne : pv.start ≠ qv.start ∨ pv.end_ ≠ qv.end_) :
    shouldResetPlayer p q = false ∧ shouldUpdateVideo p q = true := by
  constructor
  · exact shouldResetPlayer_eq_false hvid (by simp [filterResetOptions, hpv, hqv, hext, hpext])
  · rcases hne with h | h <;> simp [shouldUpdateVideo, hvid, hpv, hqv, h]

/-- C1 witness: two concrete configurations differing only in `start`. -/
theorem trim_change_updates_without_reset_witness :
    shouldResetPlayer
        ⟨some "", some "", some "", some "", some "", none,
          ⟨none, none, some ⟨none, some 10, none, []⟩, []⟩⟩
        ⟨some "", some "", some "", some "", some "", none,
          ⟨none, none, some ⟨none, some 20, none, []⟩, []⟩⟩ = false ∧
      shouldUpdateVideo
        ⟨some "", some "", some "", some "", some "", none,
          ⟨none, none, some ⟨none, some 10, none, []⟩, []⟩⟩
        ⟨some "", some "", some "", some "", some "", none,
          ⟨none, none, some ⟨none, some 20, none, []⟩, []⟩⟩ = true :=
  trim_change_updates_without_reset _ _ ⟨none, some 10, none, []⟩ ⟨none, some 20, none, []⟩
    rfl rfl rfl rfl rfl rfl rfl rfl rfl rfl rfl rfl rfl (Or.inl (by decide))

/-- C2: every pair of configurations whose option snapshots remain deeply
unequal after `filterResetOptions` neutralizes width, height, autoplay,
start and end on both sides makes `shouldResetPlayer` return true. -/
theorem outside_option_change_resets
    (p q : YouTubeProps)
    (h : filterResetOptions p.opts ≠ filterResetOptions q.opts) :
    shouldResetPlayer p q = true := by
  simp [shouldResetPlayer, h]

/-- C2 witness: the snapshots differ in an opaque option outside the
neutralized set. -/
theorem outside_option_change_resets_witness :
    shouldResetPlayer
        ⟨some "", some "", some "", some "", some "", none,
          ⟨none, none, none, [("controls", 1)]⟩⟩
        ⟨some "", some "", some "", some "", some "", none,
          ⟨none, none, none, []⟩⟩ = true :=
  outside_option_change_resets _ _ (by decide)

/-- C3: when only width, height, className, id and/or title differ, the
appearance predicate `shouldUpdatePlayer` returns true, both
`shouldResetPlayer` and `shouldUpdateVideo` return false, and
`componentDidUpdate` takes exactly the appearance-update path. -/
theorem appearance_only_change_updates_player
    (p q : YouTubeProps)
    (hvid : p.videoId = q.videoId)
    (hctr : p.containerClassName = q.containerClassName)
    (hload : p.loading = q.loading)
    (hpv : p.opts.playerVars = q.opts.playerVars)
    (hext : p.opts.extra = q.opts.extra)
    (hdiff : p.id ≠ q.id ∨ p.className ≠ q.className ∨
      p.opts.width ≠ q.opts.width ∨ p.opts.height ≠ q.opts.height ∨
      p.title ≠ q.title) :
    shouldUpdatePlayer p q = true ∧ shouldResetPlayer p q = false ∧
      shouldUpdateVideo p q = false ∧
      componentDidUpdate p q = [UpdateAction.updatePlayer] := by
  have hup : shouldUpdatePlayer p q = true := by
    rcases hdiff with h | h | h | h | h <;> simp [shouldUpdatePlayer, h]
  have hrst : shouldResetPlayer p q = false :=
    shouldResetPlayer_eq_false hvid (by simp [filterResetOptions, hpv, hext])
  have hvd : shouldUpdateVideo p q = false := shouldUpdateVideo_eq_false hvid hpv
  exact ⟨hup, hrst, hvd, by simp [componentDidUpdate, hup, hrst, hvd]⟩

/-- C3 witness: two concrete configurations differing only in `title`. -/
theorem appearance_only_change_updates_player_witness :
    shouldUpdatePlayer
        ⟨some "", some "", some "", some "", some "a", none, ⟨none, none, none, []⟩⟩
        ⟨some "", some "", some "", some "", some "b", none, ⟨none, none, none, []⟩⟩ = true ∧
      shouldResetPlayer
        ⟨some "", some "", some "", some "", some "a", none, ⟨none, none, none, []⟩⟩
        ⟨some "", some "", some "", some "", some "b", none, ⟨none, none, none, []⟩⟩ = false ∧
      shouldUpdateVideo
        ⟨some "", some "", some "", some "", some "a", none, ⟨none, none, none, []⟩⟩
        ⟨some "", some "", some "", some "", some "b", none, ⟨none, none, none, []⟩⟩ = false ∧
      componentDidUpdate
        ⟨some "", some "", some "", some "", some "a", none, ⟨none, none, none, []⟩⟩
        ⟨some "", some "", some "", some "", some "b", none, ⟨none, none, none, []⟩⟩ =
        [UpdateAction.updatePlayer] :=
  appearance_only_change_updates_player _ _ rfl rfl rfl rfl rfl
    (Or.inr (Or.inr (Or.inr (Or.inr (by decide)))))

/-- C4: with a defined video id, `updateVideo` builds the payload carrying
the id plus `startSeconds` and `endSeconds` exactly when the `start` and
`end` keys are present in `opts.playerVars`, and issues `loadVideoById`
when `opts.playerVars.autoplay` equals `1`, else `cueVideoById`, including
when `playerVars` is absent. -/
theorem defined_video_load_or_cue
    (p : YouTubeProps) (v : String) (h : p.videoId = some v) :
    updateVideo p =
      if p.opts.playerVars.bind PlayerVars.autoplay = some 1 then
        VideoCommand.loadVideoById
          { videoId := v, startSeconds := p.opts.playerVars.bind PlayerVars.start,
            endSeconds := p.opts.playerVars.bind PlayerVars.end_ }
      else
        VideoCommand.cueVideoById
          { videoId := v, startSeconds := p.opts.playerVars.bind PlayerVars.start,
            endSeconds := p.opts.playerVars.bind PlayerVars.end_ } := by
  cases hpv : p.opts.playerVars with
  | none => simp [updateVideo, h, hpv]
  | some vars =>
    by_cases ha : vars.autoplay = some 1 <;> simp [updateVideo, h, hpv, ha]

/-- C4 witness: `autoplay = 1` with a `start` key issues a load command
carrying the id and the start seconds. -/
theorem defined_video_load_or_cue_witness :
    updateVideo
        ⟨some "abc", some "", some "", some "", some "", none,
          ⟨none, none, some ⟨some 1, some 5, none, []⟩, []⟩⟩ =
      VideoCommand.loadVideoById
        { videoId := "abc", startSeconds := some 5, endSeconds := none } := by
  have h :=
    defined_video_load_or_cue
      ⟨some "abc", some "", some "", some "", some "", none,
        ⟨none, none, some ⟨some 1, some 5, none, []⟩, []⟩⟩ "abc" rfl
  simpa using h

/-- C5: `onStateChange` is always relayed; `onEnd` fires exactly at code 0,
`onPlay` exactly at code 1, `onPause` exactly at code 2; codes -1, 3 and 5
fire no derived callback; and the static `PlayerState` table is
UNSTARTED = -1, ENDED = 0, PLAYING = 1, PAUSED = 2, BUFFERING = 3,
CUED = 5. -/
theorem state_change_callback_dispatch (data : Int) :
    (onPlayerStateChange data).onStateChange = true ∧
      ((onPlayerStateChange data).onEnd = true ↔ data = 0) ∧
      ((onPlayerStateChange data).onPlay = true ↔ data = 1) ∧
      ((onPlayerStateChange data).onPause = true ↔ data = 2) ∧
      onPlayerStateChange (-1) =
        { onStateChange := true, onEnd := false, onPlay := false, onPause := false } ∧
      onPlayerStateChange 3 =
        { onStateChange := true, onEnd := false, onPlay := false, onPause := false } ∧
      onPlayerStateChange 5 =
        { onStateChange := true, onEnd := false, onPlay := false, onPause := false } ∧
      PlayerState.UNSTARTED = -1 ∧ PlayerState.ENDED = 0 ∧
      PlayerState.PLAYING = 1 ∧ PlayerState.PAUSED = 2 ∧
      PlayerState.BUFFERING = 3 ∧ PlayerState.CUED = 5 := by
  have h := onPlayerStateChange_eq data
  refine ⟨by simp [h], by simp [h], by simp [h], by simp [h],
    by decide, by decide, by decide, rfl, rfl, rfl, rfl, rfl, rfl⟩

/-- C6: an undefined video id makes `updateVideo` issue the stop command
and nothing else, whatever the rest of the configuration is. -/
theorem undefined_video_stops (p : YouTubeProps) (h : p.videoId = none) :
    updateVideo p = VideoCommand.stopVideo := by
  simp [updateVideo, h]

/-- C6 witness: a configuration with no video id but other options set. -/
theorem undefined_video_stops_witness :
    updateVideo
        ⟨none, some "x", some "y", some "", some "", none,
          ⟨some 640, some 360, some ⟨some 1, some 5, some 9, []⟩, []⟩⟩ =
      VideoCommand.stopVideo :=
  undefined_video_stops _ rfl

/-- C7: a changed video id makes both `shouldResetPlayer` and
`shouldUpdateVideo` return true. -/
theorem video_change_resets_and_updates
    (p q : YouTubeProps) (h : p.videoId ≠ q.videoId) :
    shouldResetPlayer p q = true ∧ shouldUpdateVideo p q = true := by
  exact ⟨by simp [shouldResetPlayer, h], by simp [shouldUpdateVideo, h]⟩

/-- C7 witness: two otherwise identical configurations with different
video ids. -/
theorem video_change_resets_and_updates_witness :
    shouldResetPlayer
        ⟨some "a", some "", some "", some "", some "", none, ⟨none, none, none, []⟩⟩
        ⟨some "b", some "", some "", some "", some "", none, ⟨none, none, none, []⟩⟩ = true ∧
      shouldUpdateVideo
        ⟨some "a", some "", some "", some "", some "", none, ⟨none, none, none, []⟩⟩
        ⟨some "b", some "", some "", some "", some "", none, ⟨none, none, none, []⟩⟩ = true :=
  video_change_resets_and_updates _ _ (by decide)

/-- C8: in a non-browser context `createPlayer` is a silent no-op: the
internal player reference is returned unchanged (in particular it remains
null) and no factory call or event subscription is issued. -/
theorem createPlayer_no_document
    (props : YouTubeProps) (internalPlayer : Option PlayerOptions) :
    createPlayer false props internalPlayer = (internalPlayer, []) := rfl

/-- C9: all three reconciliation predicates are reflexively false, so an
update that leaves the configuration unchanged takes no imperative path. -/
theorem reconciliation_reflexive (p : YouTubeProps) :
    shouldUpdatePlayer p p = false ∧ shouldResetPlayer p p = false ∧
      shouldUpdateVideo p p = false ∧ componentDidUpdate p p = [] := by
  have h1 : shouldUpdatePlayer p p = false := by simp [shouldUpdatePlayer]
  have h2 : shouldResetPlayer p p = false := by simp [shouldResetPlayer]
  have h3 : shouldUpdateVideo p p = false := by simp [shouldUpdateVideo]
  exact ⟨h1, h2, h3, by simp [componentDidUpdate, h1, h2, h3]⟩

/-- C10: `updateVideo` issues the stop command exactly when the video id is
undefined or null; any other value, the empty string included, yields a
load or cue command carrying that value; and the declared default for an
omitted video id is the empty string. -/
theorem stop_iff_undefined_videoId (p : YouTubeProps) :
    (updateVideo p = VideoCommand.stopVideo ↔ p.videoId = none) ∧
      (∀ v : String, p.videoId = some v →
        ∃ o : VideoOpts, o.videoId = v ∧
          (updateVideo p = VideoCommand.loadVideoById o ∨
            updateVideo p = VideoCommand.cueVideoById o)) ∧
      defaultProps.videoId = some "" := by
  refine ⟨?_, ?_, rfl⟩
  · cases hv : p.videoId with
    | none => simp [updateVideo, hv]
    | some v =>
      constructor
      · intro hcmd
        exfalso
        cases hpv : p.opts.playerVars with
        | none => simp [updateVideo, hv, hpv] at hcmd
        | some vars =>
          by_cases ha : vars.autoplay = some 1 <;>
            simp [updateVideo, hv, hpv, ha] at hcmd
      · intro hnone
        simp [hv] at hnone
  · intro v hv
    cases hpv : p.opts.playerVars with
    | none =>
      exact ⟨{ videoId := v, startSeconds := none, endSeconds := none }, rfl,
        Or.inr (by simp [updateVideo, hv, hpv])⟩
    | some vars =>
      by_cases ha : vars.autoplay = some 1
      · exact ⟨{ videoId := v, startSeconds := vars.start, endSeconds := vars.end_ }, rfl,
          Or.inl (by simp [updateVideo, hv, hpv, ha])⟩
      · exact ⟨{ videoId := v, startSeconds := vars.start, endSeconds := vars.end_ }, rfl,
          Or.inr (by simp [updateVideo, hv, hpv, ha])⟩

end ReactYouTube
